import Mathlib

/-!
Shallow embedding of src/src/uniforms/sampler.rs of the glium repository:
the sampler enums, their translation to native OpenGL constants, the
SamplerBehavior value type with its default, and the Sampler builder.
Machine integers (GLenum = u32, u8, u16) are modelled as Nat; no arithmetic
is performed on them anywhere in the module, so overflow never matters.
-/

namespace GliumSampler

/-!
Numeric values of the OpenGL enumerants referenced by sampler.rs.
They come from the external gl bindings crate; these are the standard
OpenGL enumerant values.
-/

namespace gl

def REPEAT : Nat := 0x2901

def MIRRORED_REPEAT : Nat := 0x8370

def CLAMP_TO_EDGE : Nat := 0x812F

def MIRROR_CLAMP_TO_EDGE : Nat := 0x8743

def CLAMP_TO_BORDER : Nat := 0x812D

def NEAREST : Nat := 0x2600

def LINEAR : Nat := 0x2601

def NEAREST_MIPMAP_NEAREST : Nat := 0x2700

def LINEAR_MIPMAP_NEAREST : Nat := 0x2701

def NEAREST_MIPMAP_LINEAR : Nat := 0x2702

def LINEAR_MIPMAP_LINEAR : Nat := 0x2703

end gl

/-- Rust enum SamplerWrapFunction: function to use for out-of-bounds samples. -/
inductive SamplerWrapFunction where
  | Repeat
  | Mirror
  | Clamp
  | MirrorClamp
  | BorderClamp
  deriving DecidableEq, Fintype, Repr

/-- Rust enum MagnifySamplerFilter: texel loading function when magnifying. -/
inductive MagnifySamplerFilter where
  | Nearest
  | Linear
  deriving DecidableEq, Fintype, Repr

/-- Rust enum MinifySamplerFilter: texel loading function when minifying. -/
inductive MinifySamplerFilter where
  | Nearest
  | Linear
  | NearestMipmapNearest
  | LinearMipmapNearest
  | NearestMipmapLinear
  | LinearMipmapLinear
  deriving DecidableEq, Fintype, Repr

/-- impl ToGlEnum for SamplerWrapFunction, fn to_glenum: the match in
sampler.rs lines 25-36. -/
def SamplerWrapFunction.to_glenum : SamplerWrapFunction → Nat
  | .Repeat => gl.REPEAT
  | .Mirror => gl.MIRRORED_REPEAT
  | .Clamp => gl.CLAMP_TO_EDGE
  | .MirrorClamp => gl.MIRROR_CLAMP_TO_EDGE
  | .BorderClamp => gl.CLAMP_TO_BORDER

/-- impl ToGlEnum for MagnifySamplerFilter, fn to_glenum. -/
def MagnifySamplerFilter.to_glenum : MagnifySamplerFilter → Nat
  | .Nearest => gl.NEAREST
  | .Linear => gl.LINEAR

/-- impl ToGlEnum for MinifySamplerFilter, fn to_glenum: the match in
sampler.rs lines 84-96. -/
def MinifySamplerFilter.to_glenum : MinifySamplerFilter → Nat
  | .Nearest => gl.NEAREST
  | .Linear => gl.LINEAR
  | .NearestMipmapNearest => gl.NEAREST_MIPMAP_NEAREST
  | .LinearMipmapNearest => gl.LINEAR_MIPMAP_NEAREST
  | .NearestMipmapLinear => gl.NEAREST_MIPMAP_LINEAR
  | .LinearMipmapLinear => gl.LINEAR_MIPMAP_LINEAR

/-- Rust struct SamplerBehavior. border_color channels are u8 and
max_anisotropy is u16, modelled as Nat (the module never computes on them,
it only stores and compares them). -/
structure SamplerBehavior where
  wrap_function : SamplerWrapFunction × SamplerWrapFunction × SamplerWrapFunction
  border_color : Nat × Nat × Nat × Nat
  minify_filter : MinifySamplerFilter
  magnify_filter : MagnifySamplerFilter
  max_anisotropy : Nat
  deriving DecidableEq, Repr

/-- impl Default for SamplerBehavior, fn default (sampler.rs lines 179-194). -/
def SamplerBehavior.default : SamplerBehavior :=
  { wrap_function := (SamplerWrapFunction.Mirror, SamplerWrapFunction.Mirror,
      SamplerWrapFunction.Mirror)
    border_color := (0, 0, 0, 0)
    minify_filter := MinifySamplerFilter.LinearMipmapLinear
    magnify_filter := MagnifySamplerFilter.Linear
    max_anisotropy := 1 }

/-- Rust tuple struct Sampler, a pair of a borrowed texture reference
(field 0, modelled as an opaque value of type T) and a SamplerBehavior
(field 1). -/
structure Sampler (T : Type) where
  texture : T
  behavior : SamplerBehavior
  deriving Repr

/-- Sampler::new (sampler.rs lines 103-106): pairs the texture with the
default behavior. -/
def Sampler.new {T : Type} (texture : T) : Sampler T :=
  { texture := texture, behavior := SamplerBehavior.default }

/-- Sampler::border_color (sampler.rs lines 108-112): overwrites field
self.1.border_color with the argument. -/
def Sampler.border_color {T : Type} (s : Sampler T) (color : Nat × Nat × Nat × Nat) :
    Sampler T :=
  { s with behavior := { s.behavior with border_color := color } }

/-- Sampler::wrap_function (sampler.rs lines 114-118): sets all three
components of self.1.wrap_function to the argument. -/
def Sampler.wrap_function {T : Type} (s : Sampler T) (function : SamplerWrapFunction) :
    Sampler T :=
  { s with behavior := { s.behavior with wrap_function := (function, function, function) } }

/-- Sampler::minify_filter (sampler.rs lines 120-124). -/
def Sampler.minify_filter {T : Type} (s : Sampler T) (filter : MinifySamplerFilter) :
    Sampler T :=
  { s with behavior := { s.behavior with minify_filter := filter } }

/-- Sampler::magnify_filter (sampler.rs lines 126-130). -/
def Sampler.magnify_filter {T : Type} (s : Sampler T) (filter : MagnifySamplerFilter) :
    Sampler T :=
  { s with behavior := { s.behavior with magnify_filter := filter } }

/-- Sampler::anisotropy (sampler.rs lines 132-136): overwrites
self.1.max_anisotropy. -/
def Sampler.anisotropy {T : Type} (s : Sampler T) (level : Nat) : Sampler T :=
  { s with behavior := { s.behavior with max_anisotropy := level } }

/-- Model of the derived PartialEq on SamplerBehavior: field-wise equality
tests combined with short-circuit conjunction in field declaration order. -/
def SamplerBehavior.eq (a b : SamplerBehavior) : Bool :=
  decide (a.wrap_function = b.wrap_function) &&
  decide (a.border_color = b.border_color) &&
  decide (a.minify_filter = b.minify_filter) &&
  decide (a.magnify_filter = b.magnify_filter) &&
  decide (a.max_anisotropy = b.max_anisotropy)

/-- Discriminant of a SamplerWrapFunction variant, the value the derived Hash
implementation feeds to the hasher for this field. -/
def SamplerWrapFunction.discriminant : SamplerWrapFunction → Nat
  | .Repeat => 0
  | .Mirror => 1
  | .Clamp => 2
  | .MirrorClamp => 3
  | .BorderClamp => 4

/-- Discriminant of a MagnifySamplerFilter variant. -/
def MagnifySamplerFilter.discriminant : MagnifySamplerFilter → Nat
  | .Nearest => 0
  | .Linear => 1

/-- Discriminant of a MinifySamplerFilter variant. -/
def MinifySamplerFilter.discriminant : MinifySamplerFilter → Nat
  | .Nearest => 0
  | .Linear => 1
  | .NearestMipmapNearest => 2
  | .LinearMipmapNearest => 3
  | .NearestMipmapLinear => 4
  | .LinearMipmapLinear => 5

/-- Model of the derived Hash on SamplerBehavior: the sequence of values the
implementation writes to the hasher, field by field in declaration order
(enum discriminants for enum fields, the raw channel and level values for the
integer fields). Any concrete hasher's output is a function of this stream,
so values with equal streams hash identically under every hasher. -/
def SamplerBehavior.hashStream (b : SamplerBehavior) : List Nat :=
  [b.wrap_function.1.discriminant, b.wrap_function.2.1.discriminant,
   b.wrap_function.2.2.discriminant,
   b.border_color.1, b.border_color.2.1, b.border_color.2.2.1, b.border_color.2.2.2,
   b.minify_filter.discriminant, b.magnify_filter.discriminant,
   b.max_anisotropy]

/-- C1: to_glenum realises exactly the translation table: SamplerWrapFunction
maps Repeat to gl.REPEAT, Mirror to gl.MIRRORED_REPEAT, Clamp to
gl.CLAMP_TO_EDGE, MirrorClamp to gl.MIRROR_CLAMP_TO_EDGE and BorderClamp to
gl.CLAMP_TO_BORDER; MagnifySamplerFilter maps Nearest to gl.NEAREST and
Linear to gl.LINEAR; MinifySamplerFilter maps Nearest to gl.NEAREST, Linear
to gl.LINEAR and the four mipmap variants to the corresponding
gl.*_MIPMAP_* constants. -/
theorem C1_to_glenum_table :
    SamplerWrapFunction.Repeat.to_glenum = gl.REPEAT ∧
    SamplerWrapFunction.Mirror.to_glenum = gl.MIRRORED_REPEAT ∧
    SamplerWrapFunction.Clamp.to_glenum = gl.CLAMP_TO_EDGE ∧
    SamplerWrapFunction.MirrorClamp.to_glenum = gl.MIRROR_CLAMP_TO_EDGE ∧
    SamplerWrapFunction.BorderClamp.to_glenum = gl.CLAMP_TO_BORDER ∧
    MagnifySamplerFilter.Nearest.to_glenum = gl.NEAREST ∧
    MagnifySamplerFilter.Linear.to_glenum = gl.LINEAR ∧
    MinifySamplerFilter.Nearest.to_glenum = gl.NEAREST ∧
    MinifySamplerFilter.Linear.to_glenum = gl.LINEAR ∧
    MinifySamplerFilter.NearestMipmapNearest.to_glenum = gl.NEAREST_MIPMAP_NEAREST ∧
    MinifySamplerFilter.LinearMipmapNearest.to_glenum = gl.LINEAR_MIPMAP_NEAREST ∧
    MinifySamplerFilter.NearestMipmapLinear.to_glenum = gl.NEAREST_MIPMAP_LINEAR ∧
    MinifySamplerFilter.LinearMipmapLinear.to_glenum = gl.LINEAR_MIPMAP_LINEAR :=
  ⟨rfl, rfl, rfl, rfl, rfl, rfl, rfl, rfl, rfl, rfl, rfl, rfl, rfl⟩

/-- C2: for each of the three enums, to_glenum is total and deterministic
(same variant always yields the same constant; in this pure embedding every
variant is mapped and no call can fail), and the mapping is one-to-one
within each enum: distinct variants map to distinct native constants. -/
theorem C2_to_glenum_deterministic_injective :
    (∀ a : SamplerWrapFunction, a.to_glenum = a.to_glenum) ∧
    (∀ a : MagnifySamplerFilter, a.to_glenum = a.to_glenum) ∧
    (∀ a : MinifySamplerFilter, a.to_glenum = a.to_glenum) ∧
    (∀ a b : SamplerWrapFunction, a.to_glenum = b.to_glenum → a = b) ∧
    (∀ a b : MagnifySamplerFilter, a.to_glenum = b.to_glenum → a = b) ∧
    (∀ a b : MinifySamplerFilter, a.to_glenum = b.to_glenum → a = b) := by
  refine ⟨fun _ => rfl, fun _ => rfl, fun _ => rfl, ?_, ?_, ?_⟩ <;> decide

/-- Witness for C2: the injectivity conjuncts applied at concrete variants,
each hypothesis discharged by rfl. -/
theorem C2_witness :
    SamplerWrapFunction.Repeat = SamplerWrapFunction.Repeat ∧
    MagnifySamplerFilter.Nearest = MagnifySamplerFilter.Nearest ∧
    MinifySamplerFilter.LinearMipmapLinear = MinifySamplerFilter.LinearMipmapLinear :=
  ⟨C2_to_glenum_deterministic_injective.2.2.2.1
      SamplerWrapFunction.Repeat SamplerWrapFunction.Repeat rfl,
   C2_to_glenum_deterministic_injective.2.2.2.2.1
      MagnifySamplerFilter.Nearest MagnifySamplerFilter.Nearest rfl,
   C2_to_glenum_deterministic_injective.2.2.2.2.2
      MinifySamplerFilter.LinearMipmapLinear MinifySamplerFilter.LinearMipmapLinear rfl⟩

/-- C3: SamplerBehavior.default is exactly the behavior with wrap_function
(Mirror, Mirror, Mirror), border_color (0, 0, 0, 0), minify_filter
LinearMipmapLinear, magnify_filter Linear and max_anisotropy 1. -/
theorem C3_default_value :
    SamplerBehavior.default =
      { wrap_function := (SamplerWrapFunction.Mirror, SamplerWrapFunction.Mirror,
          SamplerWrapFunction.Mirror)
        border_color := (0, 0, 0, 0)
        minify_filter := MinifySamplerFilter.LinearMipmapLinear
        magnify_filter := MagnifySamplerFilter.Linear
        max_anisotropy := 1 } :=
  rfl

/-- C4: for every texture reference t, Sampler.new t holds exactly t as its
texture reference and SamplerBehavior.default as its behavior. -/
theorem C4_new_texture_and_default_behavior (T : Type) (t : T) :
    (Sampler.new t).texture = t ∧ (Sampler.new t).behavior = SamplerBehavior.default :=
  ⟨rfl, rfl⟩

/-- C5: for every Sampler s and every SamplerWrapFunction f, the behavior of
s.wrap_function f has all three axis components of wrap_function equal to f,
whatever the per-axis values of s were before the call. -/
theorem C5_wrap_function_sets_all_axes (T : Type) (s : Sampler T)
    (f : SamplerWrapFunction) :
    (s.wrap_function f).behavior.wrap_function = (f, f, f) :=
  rfl

/-- C6: builder calls that set different fields commute: every pair of
distinct-field setter calls applied in either order to Sampler.new t yields
the same resulting SamplerBehavior, in particular minify_filter Nearest then
anisotropy 4 and the reverse order. -/
theorem C6_distinct_setters_commute (T : Type) (t : T)
    (c : Nat × Nat × Nat × Nat) (w : SamplerWrapFunction)
    (mi : MinifySamplerFilter) (ma : MagnifySamplerFilter) (l : Nat) :
    (((Sampler.new t).border_color c).wrap_function w).behavior =
      (((Sampler.new t).wrap_function w).border_color c).behavior ∧
    (((Sampler.new t).border_color c).minify_filter mi).behavior =
      (((Sampler.new t).minify_filter mi).border_color c).behavior ∧
    (((Sampler.new t).border_color c).magnify_filter ma).behavior =
      (((Sampler.new t).magnify_filter ma).border_color c).behavior ∧
    (((Sampler.new t).border_color c).anisotropy l).behavior =
      (((Sampler.new t).anisotropy l).border_color c).behavior ∧
    (((Sampler.new t).wrap_function w).minify_filter mi).behavior =
      (((Sampler.new t).minify_filter mi).wrap_function w).behavior ∧
    (((Sampler.new t).wrap_function w).magnify_filter ma).behavior =
      (((Sampler.new t).magnify_filter ma).wrap_function w).behavior ∧
    (((Sampler.new t).wrap_function w).anisotropy l).behavior =
      (((Sampler.new t).anisotropy l).wrap_function w).behavior ∧
    (((Sampler.new t).minify_filter mi).magnify_filter ma).behavior =
      (((Sampler.new t).magnify_filter ma).minify_filter mi).behavior ∧
    (((Sampler.new t).minify_filter mi).anisotropy l).behavior =
      (((Sampler.new t).anisotropy l).minify_filter mi).behavior ∧
    (((Sampler.new t).magnify_filter ma).anisotropy l).behavior =
      (((Sampler.new t).anisotropy l).magnify_filter ma).behavior ∧
    (((Sampler.new t).minify_filter MinifySamplerFilter.Nearest).anisotropy 4).behavior =
      (((Sampler.new t).anisotropy 4).minify_filter MinifySamplerFilter.Nearest).behavior :=
  ⟨rfl, rfl, rfl, rfl, rfl, rfl, rfl, rfl, rfl, rfl, rfl⟩

/-- C7: each single-field builder setter is frame-preserving: border_color,
minify_filter, magnify_filter and anisotropy each leave the texture
reference and every behavior field other than their own unchanged. -/
theorem C7_setters_frame_preserving (T : Type) (s : Sampler T)
    (c : Nat × Nat × Nat × Nat) (mi : MinifySamplerFilter)
    (ma : MagnifySamplerFilter) (l : Nat) :
    ((s.border_color c).texture = s.texture ∧
     (s.border_color c).behavior.wrap_function = s.behavior.wrap_function ∧
     (s.border_color c).behavior.minify_filter = s.behavior.minify_filter ∧
     (s.border_color c).behavior.magnify_filter = s.behavior.magnify_filter ∧
     (s.border_color c).behavior.max_anisotropy = s.behavior.max_anisotropy) ∧
    ((s.minify_filter mi).texture = s.texture ∧
     (s.minify_filter mi).behavior.wrap_function = s.behavior.wrap_function ∧
     (s.minify_filter mi).behavior.border_color = s.behavior.border_color ∧
     (s.minify_filter mi).behavior.magnify_filter = s.behavior.magnify_filter ∧
     (s.minify_filter mi).behavior.max_anisotropy = s.behavior.max_anisotropy) ∧
    ((s.magnify_filter ma).texture = s.texture ∧
     (s.magnify_filter ma).behavior.wrap_function = s.behavior.wrap_function ∧
     (s.magnify_filter ma).behavior.border_color = s.behavior.border_color ∧
     (s.magnify_filter ma).behavior.minify_filter = s.behavior.minify_filter ∧
     (s.magnify_filter ma).behavior.max_anisotropy = s.behavior.max_anisotropy) ∧
    ((s.anisotropy l).texture = s.texture ∧
     (s.anisotropy l).behavior.wrap_function = s.behavior.wrap_function ∧
     (s.anisotropy l).behavior.border_color = s.behavior.border_color ∧
     (s.anisotropy l).behavior.minify_filter = s.behavior.minify_filter ∧
     (s.anisotropy l).behavior.magnify_filter = s.behavior.magnify_filter) :=
  ⟨⟨rfl, rfl, rfl, rfl, rfl⟩, ⟨rfl, rfl, rfl, rfl, rfl⟩,
   ⟨rfl, rfl, rfl, rfl, rfl⟩, ⟨rfl, rfl, rfl, rfl, rfl⟩⟩

/-- C8: equality and hashing of SamplerBehavior are structural: two values
whose five fields are pairwise identical are equal (both propositionally and
under the derived PartialEq model) and produce identical hash streams, and
two values that differ in any single field are unequal under the derived
PartialEq model. -/
theorem C8_structural_eq_and_hash :
    (∀ a b : SamplerBehavior,
        a.wrap_function = b.wrap_function → a.border_color = b.border_color →
        a.minify_filter = b.minify_filter → a.magnify_filter = b.magnify_filter →
        a.max_anisotropy = b.max_anisotropy →
        SamplerBehavior.eq a b = true ∧ a = b ∧ a.hashStream = b.hashStream) ∧
    (∀ a b : SamplerBehavior,
        (a.wrap_function ≠ b.wrap_function ∨ a.border_color ≠ b.border_color ∨
         a.minify_filter ≠ b.minify_filter ∨ a.magnify_filter ≠ b.magnify_filter ∨
         a.max_anisotropy ≠ b.max_anisotropy) →
        SamplerBehavior.eq a b = false) := by
  constructor
  · rintro ⟨w1, c1, mi1, ma1, l1⟩ ⟨w2, c2, mi2, ma2, l2⟩ h1 h2 h3 h4 h5
    simp only at h1 h2 h3 h4 h5
    subst h1 h2 h3 h4 h5
    exact ⟨by simp [SamplerBehavior.eq], rfl, rfl⟩
  · intro a b h
    rcases h with h | h | h | h | h <;> simp [SamplerBehavior.eq, h]

/-- Witness for C8: both conjuncts applied at concrete behaviors, the
hypotheses discharged by rfl and decide. -/
theorem C8_witness :
    (SamplerBehavior.eq SamplerBehavior.default SamplerBehavior.default = true ∧
     SamplerBehavior.default = SamplerBehavior.default ∧
     SamplerBehavior.default.hashStream = SamplerBehavior.default.hashStream) ∧
    SamplerBehavior.eq SamplerBehavior.default
      { SamplerBehavior.default with max_anisotropy := 4 } = false :=
  ⟨C8_structural_eq_and_hash.1 SamplerBehavior.default SamplerBehavior.default
      rfl rfl rfl rfl rfl,
   C8_structural_eq_and_hash.2 SamplerBehavior.default
      { SamplerBehavior.default with max_anisotropy := 4 }
      (Or.inr (Or.inr (Or.inr (Or.inr (by decide)))))⟩

/-- C9: border_color is total over the whole 8-bit-per-channel domain and
stores its argument verbatim: for every Sampler s and channels below 256 the
call succeeds and the resulting behavior's border_color is exactly the
argument tuple. -/
theorem C9_border_color_verbatim (T : Type) (s : Sampler T) (r g b a : Nat)
    (hr : r < 256) (hg : g < 256) (hb : b < 256) (ha : a < 256) :
    (s.border_color (r, g, b, a)).behavior.border_color = (r, g, b, a) :=
  rfl

/-- Witness for C9: the theorem applied at the extreme channel tuple
(255, 0, 128, 64) on a fresh sampler. -/
theorem C9_witness :
    ((Sampler.new (0 : Nat)).border_color (255, 0, 128, 64)).behavior.border_color =
      (255, 0, 128, 64) :=
  C9_border_color_verbatim Nat (Sampler.new (0 : Nat)) 255 0 128 64
    (by decide) (by decide) (by decide) (by decide)

/-- C10: every builder setter obeys last-write-wins: applying the same
setter twice keeps only the second argument, for anisotropy, wrap_function,
border_color, minify_filter and magnify_filter alike; consequently each
setter is idempotent. -/
theorem C10_last_write_wins (T : Type) (s : Sampler T)
    (c c' : Nat × Nat × Nat × Nat) (w w' : SamplerWrapFunction)
    (mi mi' : MinifySamplerFilter) (ma ma' : MagnifySamplerFilter) (l l' : Nat) :
    ((s.anisotropy l).anisotropy l' = s.anisotropy l' ∧
     (s.wrap_function w).wrap_function w' = s.wrap_function w' ∧
     (s.border_color c).border_color c' = s.border_color c' ∧
     (s.minify_filter mi).minify_filter mi' = s.minify_filter mi' ∧
     (s.magnify_filter ma).magnify_filter ma' = s.magnify_filter ma') ∧
    ((s.anisotropy l).anisotropy l = s.anisotropy l ∧
     (s.wrap_function w).wrap_function w = s.wrap_function w ∧
     (s.border_color c).border_color c = s.border_color c ∧
     (s.minify_filter mi).minify_filter mi = s.minify_filter mi ∧
     (s.magnify_filter ma).magnify_filter ma = s.magnify_filter ma) :=
  ⟨⟨rfl, rfl, rfl, rfl, rfl⟩, ⟨rfl, rfl, rfl, rfl, rfl⟩⟩

end GliumSampler
